import Mathlib

/-!
Shallow embedding of the technician-arrival analysis dashboard (`app.py`).

Modelling conventions:
* GPS coordinates are rationals (`ℚ`); the distance function works over `ℝ`
  because the source computes `(... ) ** 0.5`, a real square root.
* Timestamps are rationals measured in seconds, so `pd.Timedelta(hours=2)`
  is `2 * 3600 = 7200` and `delay_minutes`, computed in the source as
  `.dt.total_seconds() / 60`, is `(t - s) / 60`.
* A pandas boolean-mask filter becomes `List.filter`; `Series.min()` on the
  timestamp column becomes `List.min?` on the mapped list; `pd.isna` on the
  `delay_minutes` column corresponds to the `none` case of an `Option`.
-/

/-- A row of the GPS table: `technician_id, timestamp, latitude, longitude`. -/
structure GpsPing where
  technician_id : String
  timestamp : ℚ
  latitude : ℚ
  longitude : ℚ
deriving DecidableEq

/-- A row of the schedule table:
`technician_id, job_id, job_latitude, job_longitude, scheduled_start`. -/
structure ScheduleEntry where
  technician_id : String
  job_id : String
  job_latitude : ℚ
  job_longitude : ℚ
  scheduled_start : ℚ
deriving DecidableEq

/-- `calculate_distance` (app.py lines 42-49): Euclidean distance in degree
space, `(lat_diff**2 + lon_diff**2)**0.5`, scaled by 111000 meters/degree. -/
noncomputable def calculate_distance (lat1 lon1 lat2 lon2 : ℝ) : ℝ :=
  let lat_diff := lat1 - lat2
  let lon_diff := lon1 - lon2
  let distance_degrees := (lat_diff ^ 2 + lon_diff ^ 2) ^ (0.5 : ℝ)
  let distance_meters := distance_degrees * 111000
  distance_meters

theorem calculate_distance_def (lat1 lon1 lat2 lon2 : ℝ) :
    calculate_distance lat1 lon1 lat2 lon2 =
      ((lat1 - lat2) ^ 2 + (lon1 - lon2) ^ 2) ^ (0.5 : ℝ) * 111000 := rfl

/-- The at-site test `calculate_distance ... ≤ 100` is equivalent to an
inequality on the squared distance (no square root). -/
theorem calculate_distance_le_100_iff (a b c d : ℝ) :
    calculate_distance a b c d ≤ 100 ↔
      ((a - c) ^ 2 + (b - d) ^ 2) * 111000 ^ 2 ≤ 100 ^ 2 := by
  have h1 : calculate_distance a b c d ≤ 100 ↔
      Real.sqrt ((a - c) ^ 2 + (b - d) ^ 2) ≤ 100 / 111000 := by
    rw [calculate_distance_def, show (0.5 : ℝ) = 1 / 2 by norm_num, ← Real.sqrt_eq_rpow,
      le_div_iff₀ (by norm_num : (0 : ℝ) < 111000)]
  rw [h1, Real.sqrt_le_left (by norm_num : (0 : ℝ) ≤ 100 / 111000), div_pow,
    le_div_iff₀ (by positivity)]

/-- On rational coordinates the at-site test reduces to a rational
inequality, which makes the resolver's proximity filter decidable (hence
executable). -/
theorem close_iff_sq (a b c d : ℚ) :
    calculate_distance (a : ℝ) (b : ℝ) (c : ℝ) (d : ℝ) ≤ 100 ↔
      ((a - c) ^ 2 + (b - d) ^ 2) * 111000 ^ 2 ≤ 100 ^ 2 := by
  rw [calculate_distance_le_100_iff]
  have h2 : ((((a - c) ^ 2 + (b - d) ^ 2) * 111000 ^ 2 : ℚ) : ℝ) ≤ ((100 ^ 2 : ℚ) : ℝ) ↔
      ((a - c) ^ 2 + (b - d) ^ 2) * 111000 ^ 2 ≤ (100 ^ 2 : ℚ) := Rat.cast_le
  rw [← h2]
  push_cast
  rfl

instance instDecClose {a b c d : ℚ} :
    Decidable (calculate_distance (a : ℝ) (b : ℝ) (c : ℝ) (d : ℝ) ≤ 100) :=
  decidable_of_iff _ (close_iff_sq a b c d).symm

/-- The technician/time-window mask of app.py lines 60-64:
`(technician_id == tech_id) & (timestamp >= start) & (timestamp <= end)`. -/
def ping_mask (tech_id : String) (time_window_start time_window_end : ℚ)
    (p : GpsPing) : Bool :=
  p.technician_id == tech_id &&
  time_window_start ≤ p.timestamp &&
  p.timestamp ≤ time_window_end

/-- `tech_gps` of app.py lines 56-64: the pings of `tech_id` within the
symmetric ±2-hour window around `scheduled_time`. -/
def tech_window_pings (gps_data : List GpsPing) (tech_id : String)
    (scheduled_time : ℚ) : List GpsPing :=
  let time_window_start := scheduled_time - 2 * 3600
  let time_window_end := scheduled_time + 2 * 3600
  gps_data.filter (ping_mask tech_id time_window_start time_window_end)

/-- `close_points` of app.py line 77: the rows whose computed `distance`
column is at most 100 meters. -/
def close_points_of (pings : List GpsPing) (job_lat job_lon : ℚ) : List GpsPing :=
  pings.filter fun p =>
    decide (calculate_distance (p.latitude : ℝ) (p.longitude : ℝ)
      (job_lat : ℝ) (job_lon : ℝ) ≤ 100)

/-- `find_arrival_time` (app.py lines 52-82). -/
def find_arrival_time (gps_data : List GpsPing) (tech_id : String)
    (job_lat job_lon : ℚ) (scheduled_time : ℚ) : Option ℚ :=
  let tech_gps := tech_window_pings gps_data tech_id scheduled_time
  if tech_gps.isEmpty then none
  else
    let close_points := close_points_of tech_gps job_lat job_lon
    if !close_points.isEmpty then (close_points.map GpsPing.timestamp).min?
    else none

/-- `get_arrival_status` (app.py lines 85-96); `none` plays the role of the
NaN delay produced when no arrival was found (`pd.isna`). -/
def get_arrival_status (delay_minutes : Option ℚ) : String :=
  match delay_minutes with
  | none => "No GPS Data"
  | some d =>
    if d ≤ -5 then "Early"
    else if d ≤ 5 then "On Time"
    else if d ≤ 30 then "Late"
    else "Very Late"

/-- The color dictionary of `get_status_color` (app.py lines 101-107). -/
def status_colors : List (String × String) :=
  [("Early", "green"), ("On Time", "lightgreen"), ("Late", "orange"),
   ("Very Late", "red"), ("No GPS Data", "gray")]

/-- `get_status_color` (app.py lines 99-108): dictionary lookup with the
`'gray'` default of `colors.get(status, 'gray')`. -/
def get_status_color (status : String) : String :=
  (status_colors.lookup status).getD "gray"

/-- `delay_minutes` derivation (app.py lines 168-171):
`(actual_arrival - scheduled_start).dt.total_seconds() / 60`, NaN (`none`)
when `actual_arrival` is missing. -/
def delay_minutes (actual_arrival : Option ℚ) (scheduled_start : ℚ) : Option ℚ :=
  actual_arrival.map fun t => (t - scheduled_start) / 60

/-- The per-job enrichment of app.py lines 150-174: actual arrival, delay in
minutes, and status for one schedule entry. -/
def resolve_job (gps_data : List GpsPing) (job : ScheduleEntry) :
    Option ℚ × Option ℚ × String :=
  let actual_arrival := find_arrival_time gps_data job.technician_id
    job.job_latitude job.job_longitude job.scheduled_start
  let delay := delay_minutes actual_arrival job.scheduled_start
  (actual_arrival, delay, get_arrival_status delay)

/-- A ping qualifies for a job when it belongs to the technician, lies in the
inclusive ±2-hour window, and is within 100 meters of the site. -/
def qualifies (tech_id : String) (job_lat job_lon scheduled_time : ℚ)
    (p : GpsPing) : Prop :=
  p.technician_id = tech_id ∧
  scheduled_time - 2 * 3600 ≤ p.timestamp ∧
  p.timestamp ≤ scheduled_time + 2 * 3600 ∧
  calculate_distance (p.latitude : ℝ) (p.longitude : ℝ)
    (job_lat : ℝ) (job_lon : ℝ) ≤ 100

instance decQualifies (tech_id : String) (job_lat job_lon scheduled_time : ℚ)
    (p : GpsPing) : Decidable (qualifies tech_id job_lat job_lon scheduled_time p) := by
  unfold qualifies; infer_instance

/-! ### Characterization of the resolver -/

theorem ping_mask_eq_true (tid : String) (ws we : ℚ) (p : GpsPing) :
    ping_mask tid ws we p = true ↔
      p.technician_id = tid ∧ ws ≤ p.timestamp ∧ p.timestamp ≤ we := by
  simp [ping_mask, and_assoc]

theorem mem_tech_window (gps_data : List GpsPing) (tid : String) (s : ℚ)
    (p : GpsPing) :
    p ∈ tech_window_pings gps_data tid s ↔
      p ∈ gps_data ∧ p.technician_id = tid ∧
        s - 2 * 3600 ≤ p.timestamp ∧ p.timestamp ≤ s + 2 * 3600 := by
  simp [tech_window_pings, List.mem_filter, ping_mask_eq_true]

theorem mem_close_points (pings : List GpsPing) (la lo : ℚ) (p : GpsPing) :
    p ∈ close_points_of pings la lo ↔
      p ∈ pings ∧
        calculate_distance (p.latitude : ℝ) (p.longitude : ℝ) (la : ℝ) (lo : ℝ) ≤ 100 := by
  simp [close_points_of, List.mem_filter]

/-- A ping survives both filter stages exactly when it qualifies. -/
theorem mem_close_tech_window (gps_data : List GpsPing) (tid : String)
    (la lo s : ℚ) (p : GpsPing) :
    p ∈ close_points_of (tech_window_pings gps_data tid s) la lo ↔
      p ∈ gps_data ∧ qualifies tid la lo s p := by
  rw [mem_close_points, mem_tech_window, qualifies]
  tauto

instance : Std.Antisymm ((· : ℚ) ≤ ·) := ⟨fun h h' => le_antisymm h h'⟩

theorem rat_min?_eq_some_iff {xs : List ℚ} {a : ℚ} :
    xs.min? = some a ↔ a ∈ xs ∧ ∀ b ∈ xs, a ≤ b :=
  List.min?_eq_some_iff (fun a => le_refl a) (fun a b => min_choice a b)
    (fun _ _ _ => le_min_iff)

/-- Unfolded form of the resolver: the two emptiness guards of the source are
redundant with `min?` returning `none` on the empty list, so the result is
always the minimum timestamp of the doubly-filtered rows. -/
theorem find_arrival_time_eq (gps_data : List GpsPing) (tid : String)
    (la lo s : ℚ) :
    find_arrival_time gps_data tid la lo s =
      ((close_points_of (tech_window_pings gps_data tid s) la lo).map
        GpsPing.timestamp).min? := by
  unfold find_arrival_time
  by_cases hw : (tech_window_pings gps_data tid s).isEmpty
  · have hcl : close_points_of (tech_window_pings gps_data tid s) la lo = [] := by
      rw [List.isEmpty_iff] at hw
      simp [close_points_of, hw]
    simp [hw, hcl]
  · by_cases hc : (close_points_of (tech_window_pings gps_data tid s) la lo).isEmpty
    · rw [List.isEmpty_iff] at hc
      simp [hw, hc]
    · simp [hw, hc]

/-- `find_arrival_time` returns `some t` exactly when `t` is the timestamp of
a qualifying ping and is minimal among the qualifying pings. -/
theorem find_arrival_time_eq_some_iff (gps_data : List GpsPing) (tid : String)
    (la lo s t : ℚ) :
    find_arrival_time gps_data tid la lo s = some t ↔
      (∃ p ∈ gps_data, qualifies tid la lo s p ∧ p.timestamp = t) ∧
      ∀ p ∈ gps_data, qualifies tid la lo s p → t ≤ p.timestamp := by
  rw [find_arrival_time_eq, rat_min?_eq_some_iff]
  constructor
  · rintro ⟨hmem, hmin⟩
    rw [List.mem_map] at hmem
    obtain ⟨p, hp, hpt⟩ := hmem
    rw [mem_close_tech_window] at hp
    refine ⟨⟨p, hp.1, hp.2, hpt⟩, ?_⟩
    intro q hq hqq
    exact hmin q.timestamp (List.mem_map_of_mem _
      ((mem_close_tech_window gps_data tid la lo s q).mpr ⟨hq, hqq⟩))
  · rintro ⟨⟨p, hp, hq, hpt⟩, hmin⟩
    refine ⟨?_, ?_⟩
    · rw [List.mem_map]
      exact ⟨p, (mem_close_tech_window gps_data tid la lo s p).mpr ⟨hp, hq⟩, hpt⟩
    · intro b hb
      rw [List.mem_map] at hb
      obtain ⟨q, hqc, hqt⟩ := hb
      rw [mem_close_tech_window] at hqc
      rw [← hqt]
      exact hmin q hqc.1 hqc.2

/-- `find_arrival_time` returns `none` exactly when no ping qualifies. -/
theorem find_arrival_time_eq_none_iff (gps_data : List GpsPing) (tid : String)
    (la lo s : ℚ) :
    find_arrival_time gps_data tid la lo s = none ↔
      ¬ ∃ p ∈ gps_data, qualifies tid la lo s p := by
  rw [find_arrival_time_eq, List.min?_eq_none_iff, List.map_eq_nil_iff,
    List.eq_nil_iff_forall_not_mem]
  constructor
  · rintro h ⟨p, hp, hq⟩
    exact h p ((mem_close_tech_window gps_data tid la lo s p).mpr ⟨hp, hq⟩)
  · intro h p hp
    rw [mem_close_tech_window] at hp
    exact h ⟨p, hp.1, hp.2⟩

/-! ### Dataframe-state model of the resolver (mutation tracking)

The source mutates a dataframe: `tech_gps['distance'] = ...` (app.py line 71)
writes a new column, but only after `tech_gps = tech_gps.copy()` (line 70)
made the rows private to the call.  To check the frame claim we model a GPS
dataframe row as a ping together with the optional `distance` column and
return, next to the result, the state of the input frame after the call. -/

/-- A row of the GPS dataframe: the ping columns plus the `distance` column
that `find_arrival_time` assigns on its local copy. -/
structure PingRow where
  ping : GpsPing
  distance : Option ℝ

/-- `find_arrival_time` with the dataframe state threaded through: the first
component is the returned arrival time, the second the state of the caller's
`gps_data` frame when the call returns.  The filtered view is copied before
the `distance` column assignment, so the column write never reaches the
input rows. -/
noncomputable def find_arrival_time_df (gps_data : List PingRow) (tech_id : String)
    (job_lat job_lon : ℚ) (scheduled_time : ℚ) : Option ℚ × List PingRow :=
  let time_window_start := scheduled_time - 2 * 3600
  let time_window_end := scheduled_time + 2 * 3600
  let tech_gps := gps_data.filter fun r =>
    ping_mask tech_id time_window_start time_window_end r.ping
  if tech_gps.isEmpty then (none, gps_data)
  else
    let tech_gps := tech_gps.map fun r =>
      { r with distance := some (calculate_distance (r.ping.latitude : ℝ)
          (r.ping.longitude : ℝ) (job_lat : ℝ) (job_lon : ℝ)) }
    let close_points := tech_gps.filter fun r =>
      decide (calculate_distance (r.ping.latitude : ℝ) (r.ping.longitude : ℝ)
        (job_lat : ℝ) (job_lon : ℝ) ≤ 100)
    if !close_points.isEmpty then
      ((close_points.map fun r => r.ping.timestamp).min?, gps_data)
    else (none, gps_data)

/-- Loading the GPS table yields rows whose `distance` column is absent. -/
def toRow (p : GpsPing) : PingRow := ⟨p, none⟩

theorem isEmpty_map {α β : Type} (f : α → β) (l : List α) :
    (l.map f).isEmpty = l.isEmpty := by
  cases l <;> rfl

theorem find_arrival_time_df_frame (gps_data : List PingRow) (tech_id : String)
    (job_lat job_lon scheduled_time : ℚ) :
    (find_arrival_time_df gps_data tech_id job_lat job_lon scheduled_time).2 =
      gps_data := by
  unfold find_arrival_time_df
  dsimp only
  split
  · rfl
  · split <;> rfl

theorem find_arrival_time_df_fst (gps_data : List GpsPing) (tech_id : String)
    (job_lat job_lon scheduled_time : ℚ) :
    (find_arrival_time_df (gps_data.map toRow) tech_id job_lat job_lon
        scheduled_time).1 =
      find_arrival_time gps_data tech_id job_lat job_lon scheduled_time := by
  unfold find_arrival_time_df find_arrival_time tech_window_pings close_points_of
  dsimp only
  simp only [List.filter_map, List.map_map, Function.comp_def, toRow, isEmpty_map]
  split
  · rfl
  · split <;> rfl

/-! ### Claims -/

/-- C5: for every pair of points, `calculate_distance` equals the Euclidean
distance in degree space multiplied by exactly 111000, as a pure function;
in particular the distance from a point to itself at the origin is 0. -/
theorem C5_distance_formula :
    (∀ lat1 lon1 lat2 lon2 : ℝ,
      calculate_distance lat1 lon1 lat2 lon2 =
        Real.sqrt ((lat1 - lat2) ^ 2 + (lon1 - lon2) ^ 2) * 111000) ∧
    calculate_distance 0 0 0 0 = 0 := by
  have h : ∀ lat1 lon1 lat2 lon2 : ℝ,
      calculate_distance lat1 lon1 lat2 lon2 =
        Real.sqrt ((lat1 - lat2) ^ 2 + (lon1 - lon2) ^ 2) * 111000 := by
    intro lat1 lon1 lat2 lon2
    rw [calculate_distance_def, show (0.5 : ℝ) = 1 / 2 by norm_num, ← Real.sqrt_eq_rpow]
  refine ⟨h, ?_⟩
  rw [h]
  norm_num [Real.sqrt_zero]

/-- C9: the distance function is symmetric in its two points. -/
theorem C9_distance_symm : ∀ lat1 lon1 lat2 lon2 : ℝ,
    calculate_distance lat1 lon1 lat2 lon2 = calculate_distance lat2 lon2 lat1 lon1 := by
  intro a b c d
  rw [calculate_distance_def, calculate_distance_def,
    show (a - c) ^ 2 + (b - d) ^ 2 = (c - a) ^ 2 + (d - b) ^ 2 by ring]

/-- C2: the status classifier is total over delays plus the unknown sentinel
and boundary-exact: unknown ↦ No GPS Data, d ≤ −5 ↦ Early, −5 < d ≤ 5 ↦
On Time, 5 < d ≤ 30 ↦ Late, d > 30 ↦ Very Late; in particular −5 ↦ Early,
5 ↦ On Time, 30 ↦ Late. -/
theorem C2_classifier_boundaries :
    get_arrival_status none = "No GPS Data" ∧
    (∀ d : ℚ, d ≤ -5 → get_arrival_status (some d) = "Early") ∧
    (∀ d : ℚ, -5 < d → d ≤ 5 → get_arrival_status (some d) = "On Time") ∧
    (∀ d : ℚ, 5 < d → d ≤ 30 → get_arrival_status (some d) = "Late") ∧
    (∀ d : ℚ, 30 < d → get_arrival_status (some d) = "Very Late") ∧
    get_arrival_status (some (-5)) = "Early" ∧
    get_arrival_status (some 5) = "On Time" ∧
    get_arrival_status (some 30) = "Late" := by
  refine ⟨rfl, ?_, ?_, ?_, ?_, ?_, ?_, ?_⟩
  · intro d h
    simp only [get_arrival_status]
    rw [if_pos h]
  · intro d h1 h2
    simp only [get_arrival_status]
    rw [if_neg (by linarith), if_pos h2]
  · intro d h1 h2
    simp only [get_arrival_status]
    rw [if_neg (by linarith), if_neg (by linarith), if_pos h2]
  · intro d h
    simp only [get_arrival_status]
    rw [if_neg (by linarith), if_neg (by linarith), if_neg (by linarith)]
  · norm_num [get_arrival_status]
  · norm_num [get_arrival_status]
  · norm_num [get_arrival_status]

theorem C2_classifier_boundaries_witness :
    get_arrival_status (some (-6)) = "Early" ∧
    get_arrival_status (some 0) = "On Time" ∧
    get_arrival_status (some 12) = "Late" ∧
    get_arrival_status (some 31) = "Very Late" :=
  ⟨C2_classifier_boundaries.2.1 (-6) (by norm_num),
   C2_classifier_boundaries.2.2.1 0 (by norm_num) (by norm_num),
   C2_classifier_boundaries.2.2.2.1 12 (by norm_num) (by norm_num),
   C2_classifier_boundaries.2.2.2.2.1 31 (by norm_num)⟩

/-- C8: the status-to-color mapping sends each of the five statuses to its
fixed color token and every other string to the explicit `'gray'` fallback. -/
theorem C8_color_total :
    get_status_color "Early" = "green" ∧
    get_status_color "On Time" = "lightgreen" ∧
    get_status_color "Late" = "orange" ∧
    get_status_color "Very Late" = "red" ∧
    get_status_color "No GPS Data" = "gray" ∧
    ∀ s : String, s ≠ "Early" → s ≠ "On Time" → s ≠ "Late" → s ≠ "Very Late" →
      s ≠ "No GPS Data" → get_status_color s = "gray" := by
  refine ⟨rfl, rfl, rfl, rfl, rfl, ?_⟩
  intro s h1 h2 h3 h4 h5
  simp [get_status_color, status_colors, List.lookup,
    show (s == "Early") = false by simp [h1],
    show (s == "On Time") = false by simp [h2],
    show (s == "Late") = false by simp [h3],
    show (s == "Very Late") = false by simp [h4],
    show (s == "No GPS Data") = false by simp [h5]]

theorem C8_color_total_witness : get_status_color "bogus" = "gray" :=
  C8_color_total.2.2.2.2.2 "bogus" (by decide) (by decide) (by decide)
    (by decide) (by decide)

/-- The C1 example: technician T pings at 09:00 (150 m away), 09:05 (80 m
away) and 09:10 (60 m away); the job site is the origin and the job is
scheduled at 09:00 (timestamps in seconds of day: 32400, 32700, 33000).
A latitude offset of `x / 111000` degrees is exactly `x` meters under the
proximity metric. -/
def c1_pings : List GpsPing :=
  [⟨"T", 32400, 150 / 111000, 0⟩,
   ⟨"T", 32700, 80 / 111000, 0⟩,
   ⟨"T", 33000, 60 / 111000, 0⟩]

/-- C1: whenever some ping of the technician lies in the ±2-hour window and
within 100 m of the site, `find_arrival_time` returns the minimum timestamp
among exactly the qualifying pings; on the 09:00/09:05/09:10 example it
returns 09:05 (= 32700 s). -/
theorem C1_resolver_returns_min_qualifying :
    (∀ (gps_data : List GpsPing) (tid : String) (la lo s : ℚ),
      (∃ p ∈ gps_data, qualifies tid la lo s p) →
      ∃ t : ℚ, find_arrival_time gps_data tid la lo s = some t ∧
        (∃ p ∈ gps_data, qualifies tid la lo s p ∧ p.timestamp = t) ∧
        ∀ p ∈ gps_data, qualifies tid la lo s p → t ≤ p.timestamp) ∧
    find_arrival_time c1_pings "T" 0 0 32400 = some 32700 := by
  constructor
  · intro gps tid la lo s h
    cases hfa : find_arrival_time gps tid la lo s with
    | none =>
      rw [find_arrival_time_eq_none_iff] at hfa
      exact absurd h hfa
    | some t =>
      have h2 := hfa
      rw [find_arrival_time_eq_some_iff] at h2
      exact ⟨t, rfl, h2.1, h2.2⟩
  · norm_num [find_arrival_time, tech_window_pings, close_points_of, c1_pings,
      List.filter_cons, List.filter_nil, ping_mask_eq_true,
      calculate_distance_le_100_iff, List.min?, List.isEmpty, min_def]

theorem C1_resolver_returns_min_qualifying_witness :
    (∃ p ∈ c1_pings, qualifies "T" 0 0 32400 p) ∧
    (∃ t : ℚ, find_arrival_time c1_pings "T" 0 0 32400 = some t ∧
      (∃ p ∈ c1_pings, qualifies "T" 0 0 32400 p ∧ p.timestamp = t) ∧
      ∀ p ∈ c1_pings, qualifies "T" 0 0 32400 p → t ≤ p.timestamp) := by
  have hq : ∃ p ∈ c1_pings, qualifies "T" 0 0 32400 p := by
    refine ⟨⟨"T", 32700, 80 / 111000, 0⟩, by simp [c1_pings], rfl, by norm_num,
      by norm_num, ?_⟩
    rw [calculate_distance_le_100_iff]
    norm_num
  exact ⟨hq, C1_resolver_returns_min_qualifying.1 c1_pings "T" 0 0 32400 hq⟩

/-- C3: the resolver answers "no arrival found" (`none`) exactly when no
qualifying ping exists — the technician's ping set is empty, or every ping
of the technician is outside the ±2-hour window, or no in-window ping is
within 100 m of the site.  (As a total Lean function it never raises on
well-formed input.) -/
theorem C3_none_iff_no_qualifying :
    ∀ (gps_data : List GpsPing) (tid : String) (la lo s : ℚ),
      find_arrival_time gps_data tid la lo s = none ↔
        ¬ ∃ p ∈ gps_data, qualifies tid la lo s p :=
  find_arrival_time_eq_none_iff

/-- C4: the time filter keeps exactly the matching-technician pings whose
timestamp lies in the inclusive ±2-hour window, and the resolver's result
depends on the input only through that filtered set — no ping outside the
window influences it, even a closest proximity match. -/
theorem C4_window_filter :
    (∀ (gps_data : List GpsPing) (tid : String) (s : ℚ) (p : GpsPing),
      p ∈ tech_window_pings gps_data tid s ↔
        p ∈ gps_data ∧ p.technician_id = tid ∧
          s - 2 * 3600 ≤ p.timestamp ∧ p.timestamp ≤ s + 2 * 3600) ∧
    (∀ (gps_data₁ gps_data₂ : List GpsPing) (tid : String) (la lo s : ℚ),
      tech_window_pings gps_data₁ tid s = tech_window_pings gps_data₂ tid s →
      find_arrival_time gps_data₁ tid la lo s =
        find_arrival_time gps_data₂ tid la lo s) := by
  refine ⟨mem_tech_window, ?_⟩
  intro g₁ g₂ tid la lo s h
  rw [find_arrival_time_eq, find_arrival_time_eq, h]

theorem C4_window_filter_witness :
    tech_window_pings [⟨"T", 0, 0, 0⟩] "T" 32400 =
      tech_window_pings [] "T" 32400 ∧
    find_arrival_time [⟨"T", 0, 0, 0⟩] "T" 0 0 32400 =
      find_arrival_time [] "T" 0 0 32400 := by
  have h : tech_window_pings [(⟨"T", 0, 0, 0⟩ : GpsPing)] "T" 32400 =
      tech_window_pings [] "T" 32400 := by
    norm_num [tech_window_pings, List.filter_cons, List.filter_nil, ping_mask_eq_true]
  exact ⟨h, C4_window_filter.2 _ _ "T" 0 0 32400 h⟩

/-- The C6 example: one job scheduled 2024-01-01T09:00:00 at (37.0, −122.0)
and one ping of the same technician at 2024-01-01T09:12:00 at
(37.0001, −122.0001); timestamps are seconds of that day (09:00 = 32400,
09:12 = 33120). -/
def c6_gps : List GpsPing :=
  [⟨"T1", 33120, 370001 / 10000, -1220001 / 10000⟩]

def c6_job : ScheduleEntry := ⟨"T1", "J1", 37, -122, 32400⟩

/-- C6: on the end-to-end example the pipeline returns
actual_arrival = 09:12:00 (= 33120 s), delay_minutes = 12 and status Late. -/
theorem C6_end_to_end :
    resolve_job c6_gps c6_job = (some 33120, some 12, "Late") := by
  norm_num [resolve_job, find_arrival_time, tech_window_pings, close_points_of,
    c6_gps, c6_job, List.filter_cons, List.filter_nil, ping_mask_eq_true,
    calculate_distance_le_100_iff, List.min?, List.isEmpty, min_def,
    delay_minutes, get_arrival_status]

/-- C7: a call to the resolver leaves the GPS dataframe it is given unchanged
(the `distance` column is assigned on a private copy), and the state-tracking
model returns the same arrival time as the plain resolver. -/
theorem C7_resolver_frame :
    ∀ (gps_rows : List PingRow) (gps_data : List GpsPing) (tid : String)
      (la lo s : ℚ),
      (find_arrival_time_df gps_rows tid la lo s).2 = gps_rows ∧
      (find_arrival_time_df (gps_data.map toRow) tid la lo s).1 =
        find_arrival_time gps_data tid la lo s := by
  intro rows gps tid la lo s
  exact ⟨find_arrival_time_df_frame rows tid la lo s,
    find_arrival_time_df_fst gps tid la lo s⟩

/-- C10: whenever the resolver returns an arrival timestamp, the timestamp
lies in the inclusive ±2-hour window around the scheduled start, so the
derived delay in minutes always lies in [−120, 120]. -/
theorem C10_arrival_in_window :
    ∀ (gps_data : List GpsPing) (tid : String) (la lo s t : ℚ),
      find_arrival_time gps_data tid la lo s = some t →
        s - 2 * 3600 ≤ t ∧ t ≤ s + 2 * 3600 ∧
        ∀ d : ℚ, delay_minutes (some t) s = some d → -120 ≤ d ∧ d ≤ 120 := by
  intro gps tid la lo s t h
  rw [find_arrival_time_eq_some_iff] at h
  obtain ⟨⟨p, -, hq, hpt⟩, -⟩ := h
  have h1 : s - 2 * 3600 ≤ t := hpt ▸ hq.2.1
  have h2 : t ≤ s + 2 * 3600 := hpt ▸ hq.2.2.1
  refine ⟨h1, h2, ?_⟩
  intro d hd
  have hdd : (t - s) / 60 = d := by
    have : delay_minutes (some t) s = some ((t - s) / 60) := rfl
    rw [this] at hd
    exact Option.some.inj hd
  constructor <;> · rw [← hdd]; linarith

theorem C10_arrival_in_window_witness :
    find_arrival_time c6_gps "T1" 37 (-122) 32400 = some 33120 ∧
    (32400 - 2 * 3600 ≤ (33120 : ℚ) ∧ (33120 : ℚ) ≤ 32400 + 2 * 3600 ∧
      ∀ d : ℚ, delay_minutes (some 33120) 32400 = some d →
        -120 ≤ d ∧ d ≤ 120) := by
  have h : find_arrival_time c6_gps "T1" 37 (-122) 32400 = some 33120 := by
    norm_num [find_arrival_time, tech_window_pings, close_points_of, c6_gps,
      List.filter_cons, List.filter_nil, ping_mask_eq_true,
      calculate_distance_le_100_iff, List.min?, List.isEmpty, min_def]
  exact ⟨h, C10_arrival_in_window c6_gps "T1" 37 (-122) 32400 33120 h⟩
